import Mathlib

/-
Verification of the FHIR views layer (google/fhir/views/views.py): the View
value type, its select/where composition, dynamic attribute resolution,
patient-id resolution and string rendering, shallowly embedded in Lean.

External collaborators (the FHIRPath expression builder, the schema context,
the patient-reference path utility and the host keyword table) are not part
of the repository sources; they are modelled from the specification and
marked as such in their doc comments.
-/

namespace FhirViews

/-- Modelled from the spec: the result types exposed by the external
expression-evaluation engine. The views layer only ever compares a result
type against Boolean, so a small closed enumeration suffices. -/
inductive FhirDataType where
  | Boolean
  | String
  | Integer
  | Struct (name : String)
  deriving DecidableEq, Repr

/-- Modelled from the spec: one field of a structure definition as the schema
context describes it, a name together with its result type. -/
structure SchemaField where
  name : String
  ty : FhirDataType
  deriving DecidableEq, Repr

/-- Modelled from the spec: the structure definition returned by the schema
context for a resource-type URL. It carries the identifier used by the
Patient test, the declared fields used for root attribute resolution, and
the patient-reference element paths in schema declaration order, as produced
by the external enumeration utility. -/
structure StructureDefinition where
  id : String
  elements : List SchemaField
  patientReferencePaths : List String
  deriving DecidableEq, Repr

/-- Modelled from the spec: the external expression builder. A builder is a
root anchored at a structure, an attribute-derived field builder, or a
reference-target identifier request (the idFor operation). -/
inductive Builder where
  | root (typeName : String) (schemaFields : List SchemaField)
  | field (parent : Builder) (name : String) (ty : FhirDataType)
  | idFor (parent : Builder) (target : String)
  deriving DecidableEq, Repr

/-- Modelled from the spec: the result type the builder reports for its
expression. A root is the structure itself, a field has the declared field
type, and a reference-target identifier is a string. -/
def Builder.returnType : Builder → FhirDataType
  | .root typeName _ => .Struct typeName
  | .field _ _ ty => ty
  | .idFor _ _ => .String

/-- Modelled from the spec: the textual FHIRPath rendering of a builder. -/
def Builder.fhirPath : Builder → String
  | .root typeName _ => typeName
  | .field parent name _ => parent.fhirPath ++ "." ++ name
  | .idFor parent target => parent.fhirPath ++ ".idFor(" ++ target ++ ")"

/-- Modelled from the spec: attribute-style field resolution on a builder,
resolving a name against the schema of a root builder and yielding a builder
scoped to that field, or nothing when the schema has no such field. -/
def Builder.getattr (b : Builder) (name : String) : Option Builder :=
  match b with
  | .root _ schemaFields =>
      (schemaFields.find? (fun f => f.name == name)).map
        (fun f => .field b name f.ty)
  | _ => none

/-- Modelled from the spec: the schema-derived field names a builder exposes
for directory introspection, kept consistent with attribute resolution. -/
def Builder.fhirPathFields : Builder → List String
  | .root _ schemaFields => schemaFields.map (fun f => f.name)
  | _ => []

/-- Errors raised by the views layer: the invalid-constraint ValueError of
where carrying the offending textual rendering, the unknown-attribute
AttributeError carrying the requested name, and the propagated failure of
the schema context on an unknown resource-type URL. -/
inductive ViewError where
  | invalidConstraint (fhirPath : String)
  | attributeError (name : String)
  | unresolvableType (url : String)
  deriving DecidableEq, Repr

/-- Modelled from the host language: the reserved keyword table consulted by
attribute resolution (keyword.iskeyword). These are the hard keywords of
Python 3. -/
def pythonKeywords : List String :=
  ["False", "None", "True", "and", "as", "assert", "async", "await",
   "break", "class", "continue", "def", "del", "elif", "else", "except",
   "finally", "for", "from", "global", "if",
   "import", "in", "is", "lambda", "nonlocal", "not", "or", "pass",
   "raise", "return", "try", "while", "with", "yield"]

/-- Modelled from the host language: keyword.iskeyword. -/
def iskeyword (s : String) : Bool :=
  pythonKeywords.contains s

/-- Whether a name ends with the underscore character, the endswith test of
the source written on the character list of the string. -/
def endsWithUnderscore (name : String) : Bool :=
  name.data.getLast? == some '_'

/-- The name with its final character removed, the slice dropping the last
character written on the character list of the string. -/
def dropLast1 (name : String) : String :=
  ⟨name.data.dropLast⟩

/-- The lookup-key computation of View.__getattr__: a name ending in a
single underscore whose prefix is a reserved keyword has the underscore
stripped, any other name is used as-is. -/
def lookupKey (name : String) : String :=
  if endsWithUnderscore name && iskeyword (dropLast1 name) then
    dropLast1 name
  else name

/-- Lookup in the ordered field mapping, as immutabledict.get. -/
def assocGet (fields : List (String × Builder)) (key : String) :
    Option Builder :=
  (fields.find? (fun p => p.fst == key)).map (fun p => p.snd)

/-- Modelled from the spec: the schema context, a read-only table from
resource-type URL to structure definition (get_structure_definition). -/
def contextGet (ctx : List (String × StructureDefinition)) (url : String) :
    Option StructureDefinition :=
  (ctx.find? (fun p => p.fst == url)).map (fun p => p.snd)

/-- The View value: resource-type URL, root expression builder, schema
context, ordered field mapping and ordered constraint sequence, as stored by
View.__init__. -/
structure View where
  structdefUrl : String
  rootBuilder : Builder
  context : List (String × StructureDefinition)
  fields : List (String × Builder)
  constraints : List Builder
  deriving DecidableEq, Repr

/-- View.select: a new View with the given fields, carrying over the
resource-type URL, root builder, context and constraints. -/
def View.select (v : View) (fields : List (String × Builder)) : View :=
  ⟨v.structdefUrl, v.rootBuilder, v.context, fields, v.constraints⟩

/-- View.where: each supplied constraint must have Boolean result type; the
first offender raises a ValueError carrying its textual rendering, otherwise
the new View appends the constraints to the existing sequence. -/
def View.where' (v : View) (constraints : List Builder) :
    Except ViewError View :=
  match constraints.find? (fun c => !(c.returnType == FhirDataType.Boolean)) with
  | some c => .error (.invalidConstraint c.fhirPath)
  | none =>
      .ok ⟨v.structdefUrl, v.rootBuilder, v.context, v.fields,
           v.constraints ++ constraints⟩

/-- View.__getattr__: strip the keyword-disambiguation suffix to obtain the
lookup key; when the field mapping is non-empty resolve only against it,
otherwise delegate to the root builder; failure raises an AttributeError
naming the requested attribute. -/
def View.getattr (v : View) (name : String) : Except ViewError Builder :=
  let lookup := lookupKey name
  let expression :=
    if !v.fields.isEmpty then assocGet v.fields lookup
    else v.rootBuilder.getattr lookup
  match expression with
  | none => .error (.attributeError name)
  | some e => .ok e

/-- The operations View.__dir__ appends from dir(type(self)): the declared
public operations of the View class. -/
def viewClassDir : List String :=
  ["select", "where", "get_structdef_url", "get_patient_id_expression",
   "get_select_expressions", "get_constraint_expressions",
   "get_fhir_path_context"]

/-- View.__dir__: the explicit field names when a selection exists,
otherwise the schema-derived field names of the root builder, followed by
the operations of the class itself. -/
def View.dir (v : View) : List String :=
  (if !v.fields.isEmpty then v.fields.map (fun p => p.fst)
   else v.rootBuilder.fhirPathFields) ++ viewClassDir

/-- View.get_patient_id_expression: fetch the structure definition; for the
Patient type return the root id field; otherwise enumerate the
patient-reference element paths, return none when there are none, prefer the
path named subject, otherwise take the first, and build the reference-target
identifier expression scoped to resource type patient. -/
def View.getPatientIdExpression (v : View) :
    Except ViewError (Option Builder) :=
  match contextGet v.context v.structdefUrl with
  | none => .error (.unresolvableType v.structdefUrl)
  | some structdef =>
      if structdef.id = "Patient" then
        match v.rootBuilder.getattr "id" with
        | some e => .ok (some e)
        | none => .error (.attributeError "id")
      else
        match structdef.patientReferencePaths with
        | [] => .ok none
        | p :: ps =>
            let patientRef :=
              if "subject" ∈ p :: ps then "subject" else p
            match v.rootBuilder.getattr patientRef with
            | some e => .ok (some (e.idFor "patient"))
            | none => .error (.attributeError patientRef)

/-- View.__str__: the select block lists one indented name-and-rendering
line per field joined by comma-newline; a where block is appended exactly
when constraints exist. -/
def View.str (v : View) : String :=
  let selectStrings :=
    v.fields.map (fun p => "  " ++ p.fst ++ ": " ++ p.snd.fhirPath)
  let whereStrings :=
    v.constraints.map (fun c => "  " ++ c.fhirPath)
  if whereStrings.isEmpty then
    "View<" ++ v.structdefUrl ++ ".select(\n"
      ++ String.intercalate ",\n" selectStrings ++ "\n)>"
  else
    "View<" ++ v.structdefUrl ++ ".select(\n"
      ++ String.intercalate ",\n" selectStrings
      ++ "\n).where(\n" ++ String.intercalate ",\n" whereStrings ++ "\n)>"

/-- The rendering template as the specification words it: the header with
the resource-type URL, the field lines in stored mapping order joined by
comma-newline, closed by the parenthesis-bracket pair, with a where block
inserted before the closing bracket exactly when the constraint sequence is
non-empty. -/
def renderSpec (v : View) : String :=
  let header := "View<" ++ v.structdefUrl ++ ".select(\n"
  let selectBlock :=
    String.intercalate ",\n"
      (v.fields.map (fun p => "  " ++ p.fst ++ ": " ++ p.snd.fhirPath))
  let whereBlock :=
    String.intercalate ",\n"
      (v.constraints.map (fun c => "  " ++ c.fhirPath))
  if v.constraints.isEmpty then header ++ selectBlock ++ "\n)>"
  else header ++ selectBlock ++ "\n).where(\n" ++ whereBlock ++ "\n)>"

/-- Sample schema fields of an Observation-like resource, used by concrete
witnesses. -/
def obsElements : List SchemaField :=
  [⟨"id", .String⟩, ⟨"status", .String⟩,
   ⟨"performer", .Struct "Reference"⟩, ⟨"subject", .Struct "Reference"⟩,
   ⟨"active", .Boolean⟩, ⟨"preliminary", .Boolean⟩]

/-- Sample structure definition whose patient-reference enumeration lists
performer before subject. -/
def obsSD : StructureDefinition :=
  ⟨"Observation", obsElements, ["performer", "subject"]⟩

/-- Sample Patient structure definition. -/
def patientSD : StructureDefinition :=
  ⟨"Patient", [⟨"id", .String⟩, ⟨"active", .Boolean⟩], []⟩

/-- Sample structure definition with no patient-reference path. -/
def orgSD : StructureDefinition :=
  ⟨"Organization", [⟨"id", .String⟩, ⟨"name", .String⟩], []⟩

/-- Sample schema context for the witnesses. -/
def sampleContext : List (String × StructureDefinition) :=
  [("Observation", obsSD), ("Patient", patientSD), ("Organization", orgSD)]

/-- Sample root builder for the Observation resource. -/
def obsRoot : Builder := .root "Observation" obsElements

/-- Sample root View of the Observation resource. -/
def obsView : View := ⟨"Observation", obsRoot, sampleContext, [], []⟩

/-- Sample boolean-typed constraint expression. -/
def activeExpr : Builder := .field obsRoot "active" .Boolean

/-- A second sample boolean-typed constraint expression. -/
def prelimExpr : Builder := .field obsRoot "preliminary" .Boolean

/-- Sample non-boolean expression. -/
def statusExpr : Builder := .field obsRoot "status" .String

/-- Sample root builder and View for the Patient resource. -/
def patientRoot : Builder :=
  .root "Patient" [⟨"id", .String⟩, ⟨"active", .Boolean⟩]

/-- Sample Patient View. -/
def patientView : View := ⟨"Patient", patientRoot, sampleContext, [], []⟩

/-- Sample Organization View, a resource with no patient reference. -/
def orgView : View :=
  ⟨"Organization", .root "Organization" [⟨"id", .String⟩, ⟨"name", .String⟩],
   sampleContext, [], []⟩

/-- C1: attribute resolution follows the two-tier algorithm exactly. The
lookup key strips a single trailing underscore exactly when the prefix is a
reserved keyword; with a non-empty field mapping the key is resolved only
against that mapping and an undeclared name fails with an AttributeError
naming the requested attribute; with an empty mapping the lookup is
delegated to the root builder; in particular a view selected with field x
resolves x to its expression and fails on any other name. -/
theorem getattr_two_tier (v : View) (name : String) :
    (lookupKey name =
      if endsWithUnderscore name && iskeyword (dropLast1 name) then
        dropLast1 name
      else name)
    ∧ (v.fields.isEmpty = false →
        v.getattr name =
          match assocGet v.fields (lookupKey name) with
          | some e => Except.ok e
          | none => Except.error (ViewError.attributeError name))
    ∧ (v.fields.isEmpty = true →
        v.getattr name =
          match v.rootBuilder.getattr (lookupKey name) with
          | some e => Except.ok e
          | none => Except.error (ViewError.attributeError name))
    ∧ (∀ expr : Builder,
        (v.select [("x", expr)]).getattr "x" = Except.ok expr)
    ∧ (∀ y : String, ∀ expr : Builder, lookupKey y ≠ "x" →
        (v.select [("x", expr)]).getattr y =
          Except.error (ViewError.attributeError y)) := by
  refine ⟨rfl, ?_, ?_, ?_, ?_⟩
  · intro h
    cases he : assocGet v.fields (lookupKey name) <;>
      simp [View.getattr, h, he]
  · intro h
    cases he : v.rootBuilder.getattr (lookupKey name) <;>
      simp [View.getattr, h, he]
  · intro expr
    have hk : lookupKey "x" = "x" := by decide
    simp [View.getattr, View.select, assocGet, hk, List.find?]
  · intro y expr h
    have hbeq : ("x" == lookupKey y) = false := by
      simpa using fun hx => h hx.symm
    simp [View.getattr, View.select, assocGet, List.find?, hbeq]

/-- C6: select is idempotent; applying the same mapping twice yields a View
equal to applying it once, with the same URL, fields and constraints. -/
theorem select_idempotent (v : View) (f : List (String × Builder)) :
    (v.select f).select f = v.select f := rfl

/-- C9: the string rendering is a pure function of the View value, hence
byte-identical across repeated calls, and it equals the documented template:
the select block with one indented line per field in stored order joined by
comma-newline, with a where block appended before the closing bracket
exactly when constraints are present. -/
theorem str_deterministic_template (v : View) :
    View.str v = renderSpec v := by
  obtain ⟨url, rb, ctx, fs, cs⟩ := v
  cases cs <;> rfl

/-- C10: selecting the empty mapping does not scope the View; attribute
resolution and directory introspection on it behave exactly as on a View
with no selection at all, falling through to the schema-derived root
builder. -/
theorem select_empty_transparent (v : View) (name : String) :
    (v.select []).getattr name =
      (View.mk v.structdefUrl v.rootBuilder v.context [] v.constraints).getattr
        name
    ∧ ((v.select []).getattr name =
        match v.rootBuilder.getattr (lookupKey name) with
        | some e => Except.ok e
        | none => Except.error (ViewError.attributeError name))
    ∧ (v.select []).dir = v.rootBuilder.fhirPathFields ++ viewClassDir
    ∧ (v.select []).dir =
        (View.mk v.structdefUrl v.rootBuilder v.context [] v.constraints).dir
    := by
  refine ⟨rfl, ?_, rfl, rfl⟩
  cases he : v.rootBuilder.getattr (lookupKey name) <;>
    simp [View.getattr, View.select, he]

/-- C3: where fails exactly when some supplied constraint is non-boolean,
however many valid constraints accompany it, and the error carries the
textual rendering of an offending constraint; in the embedding an error
result produces no View, and composition is pure, so the receiver is
unchanged. -/
theorem where_invalid_iff (v : View) (cs : List Builder) :
    ((∃ e, v.where' cs = Except.error e) ↔
      ∃ c ∈ cs, c.returnType ≠ FhirDataType.Boolean)
    ∧ (∀ e, v.where' cs = Except.error e →
        ∃ c ∈ cs, c.returnType ≠ FhirDataType.Boolean
          ∧ e = ViewError.invalidConstraint c.fhirPath) := by
  constructor
  · constructor
    · rintro ⟨e, he⟩
      unfold View.where' at he
      cases hfind : cs.find?
          (fun c => !(c.returnType == FhirDataType.Boolean)) with
      | some c =>
          refine ⟨c, List.mem_of_find?_eq_some hfind, ?_⟩
          have hc := List.find?_some hfind
          simpa using hc
      | none => rw [hfind] at he; cases he
    · rintro ⟨c, hc, hne⟩
      unfold View.where'
      cases hfind : cs.find?
          (fun c => !(c.returnType == FhirDataType.Boolean)) with
      | some c2 => exact ⟨_, rfl⟩
      | none =>
          exfalso
          have hall := List.find?_eq_none.mp hfind c hc
          simp at hall
          exact hne hall
  · intro e he
    unfold View.where' at he
    cases hfind : cs.find?
        (fun c => !(c.returnType == FhirDataType.Boolean)) with
    | some c =>
        rw [hfind] at he
        refine ⟨c, List.mem_of_find?_eq_some hfind, ?_, ?_⟩
        · have hc := List.find?_some hfind
          simpa using hc
        · cases he; rfl
    | none => rw [hfind] at he; cases he

/-- C4: select and where never change the receiver (composition in the
embedding is pure) and the derived View carries over the URL, root builder
and schema context; select additionally carries over the constraints and
where carries over the fields. -/
theorem select_where_frame (v : View) (f : List (String × Builder))
    (cs : List Builder) (w : View) (hw : v.where' cs = Except.ok w) :
    v.select f =
      View.mk v.structdefUrl v.rootBuilder v.context f v.constraints
    ∧ w =
      View.mk v.structdefUrl v.rootBuilder v.context v.fields
        (v.constraints ++ cs) := by
  refine ⟨rfl, ?_⟩
  unfold View.where' at hw
  cases hfind : cs.find?
      (fun c => !(c.returnType == FhirDataType.Boolean)) with
  | some c => rw [hfind] at hw; cases hw
  | none => rw [hfind] at hw; cases hw; rfl

/-- Witness for C4 at concrete inputs: the hypothesis holds at a one-element
boolean constraint list, and the frame facts follow by applying the
theorem. -/
theorem select_where_frame_witness :
    obsView.where' [activeExpr] =
      Except.ok
        (View.mk "Observation" obsRoot sampleContext [] [activeExpr])
    ∧ (obsView.select [("status", statusExpr)] =
        View.mk "Observation" obsRoot sampleContext
          [("status", statusExpr)] []
      ∧ View.mk "Observation" obsRoot sampleContext [] [activeExpr] =
          View.mk "Observation" obsRoot sampleContext [] ([] ++ [activeExpr]))
    := by
  refine ⟨rfl, ?_⟩
  exact select_where_frame obsView [("status", statusExpr)] [activeExpr]
    (View.mk "Observation" obsRoot sampleContext [] [activeExpr]) rfl

/-- C5: constraint accumulation is order-preserving and insensitive to call
grouping; two chained single-constraint calls and one two-constraint call
both append the constraints in order to the existing sequence. -/
theorem where_accumulation (v : View) (a b : Builder)
    (ha : a.returnType = FhirDataType.Boolean)
    (hb : b.returnType = FhirDataType.Boolean) :
    v.where' [a, b] =
      Except.ok
        (View.mk v.structdefUrl v.rootBuilder v.context v.fields
          (v.constraints ++ [a, b]))
    ∧ (v.where' [a]).bind (fun w => w.where' [b]) = v.where' [a, b] := by
  constructor
  · unfold View.where'
    simp [List.find?, ha, hb]
  · unfold View.where'
    simp [List.find?, ha, hb, Except.bind, List.append_assoc]

/-- Witness for C5 at concrete inputs: two boolean constraint expressions of
the sample Observation view, with the hypotheses discharged by evaluation. -/
theorem where_accumulation_witness :
    activeExpr.returnType = FhirDataType.Boolean
    ∧ prelimExpr.returnType = FhirDataType.Boolean
    ∧ (obsView.where' [activeExpr, prelimExpr] =
        Except.ok
          (View.mk obsView.structdefUrl obsView.rootBuilder obsView.context
            obsView.fields (obsView.constraints ++ [activeExpr, prelimExpr]))
      ∧ (obsView.where' [activeExpr]).bind (fun w => w.where' [prelimExpr]) =
          obsView.where' [activeExpr, prelimExpr]) :=
  ⟨rfl, rfl, where_accumulation obsView activeExpr prelimExpr rfl rfl⟩

/-- C2: for a non-Patient resource with a non-empty patient-reference path
enumeration, the chosen path is subject whenever subject is among the
candidates and otherwise the first candidate in enumeration order, and the
returned expression resolves that path from the root and requests its
reference-target identifier scoped to resource type patient. -/
theorem patient_id_subject_preference (v : View) (sd : StructureDefinition)
    (p : String) (ps : List String) (e : Builder)
    (hsd : contextGet v.context v.structdefUrl = some sd)
    (hnotpat : sd.id ≠ "Patient")
    (hpaths : sd.patientReferencePaths = p :: ps)
    (hres : v.rootBuilder.getattr
        (if "subject" ∈ p :: ps then "subject" else p) = some e) :
    v.getPatientIdExpression = Except.ok (some (e.idFor "patient"))
    ∧ ("subject" ∈ p :: ps →
        (if "subject" ∈ p :: ps then "subject" else p) = "subject") := by
  constructor
  · unfold View.getPatientIdExpression
    rw [hsd]
    simp only [if_neg hnotpat, hpaths]
    rw [hres]
  · intro hmem
    rw [if_pos hmem]

/-- Witness for C2 at concrete inputs: the sample Observation schema lists
performer before subject among the patient-reference paths, yet the
resolved expression is built from subject. -/
theorem patient_id_subject_preference_witness :
    contextGet obsView.context obsView.structdefUrl = some obsSD
    ∧ obsSD.id ≠ "Patient"
    ∧ obsSD.patientReferencePaths = "performer" :: ["subject"]
    ∧ obsView.getPatientIdExpression =
        Except.ok (some ((Builder.field obsRoot "subject"
          (FhirDataType.Struct "Reference")).idFor "patient")) :=
  ⟨rfl, by decide, rfl,
    (patient_id_subject_preference obsView obsSD "performer" ["subject"]
      (Builder.field obsRoot "subject" (FhirDataType.Struct "Reference"))
      rfl (by decide) rfl (by decide)).1⟩

/-- C7: for a resource whose structure definition identifier is Patient, the
patient-id expression is the root builder's own id field, and the result
does not consult the patient-reference path enumeration: it is unchanged
under any replacement of the enumerated paths. -/
theorem patient_id_patient_type (v : View) (sd : StructureDefinition)
    (e : Builder)
    (hsd : contextGet v.context v.structdefUrl = some sd)
    (hid : sd.id = "Patient")
    (he : v.rootBuilder.getattr "id" = some e) :
    v.getPatientIdExpression = Except.ok (some e)
    ∧ ∀ ps : List String,
        View.getPatientIdExpression
          (View.mk v.structdefUrl v.rootBuilder
            [(v.structdefUrl, StructureDefinition.mk sd.id sd.elements ps)]
            v.fields v.constraints)
          = Except.ok (some e) := by
  constructor
  · unfold View.getPatientIdExpression
    rw [hsd]
    simp [hid, he]
  · intro ps
    unfold View.getPatientIdExpression
    simp [contextGet, List.find?, hid, he]

/-- Witness for C7 at concrete inputs: the sample Patient view resolves the
patient-id expression to the id field of its root builder. -/
theorem patient_id_patient_type_witness :
    contextGet patientView.context patientView.structdefUrl = some patientSD
    ∧ patientSD.id = "Patient"
    ∧ patientRoot.getattr "id" =
        some (Builder.field patientRoot "id" FhirDataType.String)
    ∧ patientView.getPatientIdExpression =
        Except.ok (some (Builder.field patientRoot "id" FhirDataType.String))
    :=
  ⟨rfl, rfl, rfl,
    (patient_id_patient_type patientView patientSD
      (Builder.field patientRoot "id" FhirDataType.String) rfl rfl rfl).1⟩

/-- C8: for a non-Patient resource whose structure definition yields zero
patient-reference element paths, the patient-id expression is an explicit
absent result, not an error. -/
theorem patient_id_absent (v : View) (sd : StructureDefinition)
    (hsd : contextGet v.context v.structdefUrl = some sd)
    (hnotpat : sd.id ≠ "Patient")
    (hzero : sd.patientReferencePaths = []) :
    v.getPatientIdExpression = Except.ok none := by
  unfold View.getPatientIdExpression
  rw [hsd]
  simp [if_neg hnotpat, hzero]

/-- Witness for C8 at concrete inputs: the sample Organization view, whose
schema has no patient-reference path, yields the absent result. -/
theorem patient_id_absent_witness :
    contextGet orgView.context orgView.structdefUrl = some orgSD
    ∧ orgSD.id ≠ "Patient"
    ∧ orgSD.patientReferencePaths = []
    ∧ orgView.getPatientIdExpression = Except.ok none :=
  ⟨rfl, by decide, rfl, patient_id_absent orgView orgSD rfl (by decide) rfl⟩

end FhirViews
